import Mathlib

/-!
Verification development for gazebo_plugins/src/gazebo_ros_depth_camera.cpp.

The per-frame conversion code of the depth-camera plugin is embedded
shallowly.  Finite 32-bit float values that the source only moves around,
compares against the range cutoff, or scales by the exactly representable
constant 1000 are modelled by rationals; the IEEE quiet-NaN sentinel that the
source writes into invalid slots is modelled by `none` of an `Option`
(`FSlot`).  The transcendental angle computation `tan(atan2(offset, fl))`
feeding the x/y slots is kept abstract as rational-valued per-pixel functions
`tanY`/`tanP` (the claims under study never constrain its numeric value, only
whether the slot holds a finite value or the NaN sentinel).  The marker
orientation math of OnNewNormalsFrame, which is genuinely transcendental, is
embedded separately over the real numbers.
-/

/-- A 32-bit float slot of a message or of the cached point grid `pcd_`:
`none` models the IEEE quiet-NaN sentinel written by the source, `some q` a
finite value.  All finite operations the source performs on these slots
(copying, comparison with the cutoff) are exact, so rationals are faithful. -/
abbrev FSlot := Option ℚ

/-- One point record of the PointCloud2 message filled by
GazeboRosDepthCamera::FillPointCloudHelper: the x, y, z float fields and the
three colour bytes written through iter_rgb (lines 686-689, 723-763). -/
structure CloudPoint where
  x : FSlot
  y : FSlot
  z : FSlot
  c0 : ℕ
  c1 : ℕ
  c2 : ℕ
deriving DecidableEq

/-- One pixel of the cached point grid `pcd_` (four floats per pixel,
written at `pcd_[4*index .. 4*index+3]` in FillPointCloudHelper). -/
structure PcdEntry where
  px : FSlot
  py : FSlot
  pz : FSlot
  pw : FSlot
deriving DecidableEq

/-- The parts of the sensor_msgs::PointCloud2 message that
FillPointCloudHelper computes: the per-point records and the is_dense flag. -/
structure PointCloudMsg where
  points : List CloudPoint
  is_dense : Bool
deriving DecidableEq

/-- The colour-fusion block of FillPointCloudHelper (lines 741-763): a
3-channel buffer of byte length rows*cols*3 is indexed as packed RGB, a
buffer of byte length rows*cols is replicated into all three channels, and
any other length (including an absent image, the empty list) yields zeroes.
`List.getD` with default 0 models the raw pointer read, which is always in
bounds when the length matches. -/
def fusedColor (rows cols : ℕ) (img : List ℕ) (i j : ℕ) : ℕ × ℕ × ℕ :=
  if img.length = rows * cols * 3 then
    (img.getD (i * 3 + j * cols * 3 + 0) 0,
     img.getD (i * 3 + j * cols * 3 + 1) 0,
     img.getD (i * 3 + j * cols * 3 + 2) 0)
  else if img.length = rows * cols then
    (img.getD (i + j * cols) 0,
     img.getD (i + j * cols) 0,
     img.getD (i + j * cols) 0)
  else
    (0, 0, 0)

/-- One iteration of the pixel loop of FillPointCloudHelper
(lines 704-764) at flat index `idx = j*cols + i`.  `tanY i` abstracts
`tan(yAngle)` (the tangent of the horizontal angle of column i) and `tanP j`
abstracts `tan(pAngle)` (row j); both are transcendental in the source, and
only the finite-versus-NaN status of the slots they feed matters to the
properties proved below.  The first component is the message point (iter_x,
iter_y, iter_z, iter_rgb), the second the four floats written to
`pcd_[4*idx .. 4*idx+3]`: iter_x and iter_y are copied into the grid after
the cutoff branch, hence they carry the NaN sentinel in the else branch,
while the z slot is 0 there and the fourth slot is always 0. -/
def fillCell (cutoff : ℚ) (rows cols : ℕ) (tanY tanP : ℕ → ℚ) (depth : ℕ → ℚ)
    (img : List ℕ) (idx : ℕ) : CloudPoint × PcdEntry :=
  let i := idx % cols
  let j := idx / cols
  let d := depth idx
  let x0 : ℚ := d * tanY i
  let y0 : ℚ := d * tanP j
  let rgb := fusedColor rows cols img i j
  let xyz : FSlot × FSlot × FSlot :=
    if cutoff < d then (some x0, some y0, some d) else (none, none, none)
  let pz : FSlot := if cutoff < d then some d else some 0
  (⟨xyz.1, xyz.2.1, xyz.2.2, rgb.1, rgb.2.1, rgb.2.2⟩,
   ⟨xyz.1, xyz.2.1, pz, some 0⟩)

/-- GazeboRosDepthCamera::FillPointCloudHelper (lines 677-768): the message
(point records and is_dense flag) and the cached point grid `pcd_` produced
from a rows*cols depth grid.  The double loop (j outer, i inner) visits flat
indices 0..rows*cols-1 in order, and both the sequential read pointer and the
recomputed `index` equal the flat index, so the loop is a map over the flat
range.  is_dense starts true and is cleared exactly in the else branch of
the cutoff test, i.e. it ends true iff every sample exceeds the cutoff. -/
def FillPointCloudHelper (cutoff : ℚ) (rows cols : ℕ) (tanY tanP : ℕ → ℚ)
    (depth : ℕ → ℚ) (img : List ℕ) : PointCloudMsg × List PcdEntry :=
  let cells := (List.range (rows * cols)).map
    (fillCell cutoff rows cols tanY tanP depth img)
  (⟨cells.map Prod.fst,
    (List.range (rows * cols)).all (fun idx => decide (cutoff < depth idx))⟩,
   cells.map Prod.snd)

/-- The two encodings of the depth raster produced by
GazeboRosDepthCamera::FillDepthImageHelper: 32FC1 float metres (NaN sentinel
for invalid samples, modelled as `none`) or 16UC1 unsigned millimetres. -/
inductive DepthRaster
  | float32 (data : List FSlot)
  | uint16 (data : List ℕ)
deriving DecidableEq

/-- The 16UC1 raster entry at flat index i, when present. -/
def DepthRaster.at16 : DepthRaster → ℕ → Option ℕ
  | DepthRaster.uint16 data, i => data[i]?
  | DepthRaster.float32 _, _ => none

/-- The 32FC1 raster entry at flat index i, when present. -/
def DepthRaster.atF : DepthRaster → ℕ → Option FSlot
  | DepthRaster.float32 data, i => data[i]?
  | DepthRaster.uint16 _, _ => none

/-- GazeboRosDepthCamera::FillDepthImageHelper (lines 771-829).  The double
loop writes `dest[i + j*cols]`, the flat read index, so the raster is a map
over the flat range.  In the 16UC1 branch the source executes the C++
conversion `(uint16_t)(depth * 1000.0)`: the product is exact (a 24-bit float
mantissa times the 10-bit constant 1000 fits a double) and the conversion
truncates toward zero, i.e. takes the floor for the nonnegative depths the
sensor delivers; a product outside the 16-bit range is undefined behaviour in
the source and the model does not wrap it. -/
def FillDepthImageHelper (use16 : Bool) (cutoff : ℚ) (rows cols : ℕ)
    (depth : ℕ → ℚ) : DepthRaster :=
  if use16 = false then
    DepthRaster.float32 ((List.range (rows * cols)).map (fun idx =>
      if cutoff < depth idx then some (depth idx) else none))
  else
    DepthRaster.uint16 ((List.range (rows * cols)).map (fun idx =>
      if cutoff < depth idx then (⌊depth idx * 1000⌋).toNat else 0))

/-- The subscriber counters of the plugin (five per-output counts plus the
shared image-consumer count `*image_connect_count_`) together with the
parent sensor's active flag, which the handlers drive through SetActive. -/
structure CameraState where
  point_cloud_connect_count : ℤ
  normals_connect_count : ℤ
  depth_image_connect_count : ℤ
  depth_info_connect_count : ℤ
  reflectance_connect_count : ℤ
  image_connect_count : ℤ
  active : Bool
deriving DecidableEq

/-- GazeboRosDepthCamera::PointCloudConnect (lines 226-231). -/
def PointCloudConnect (s : CameraState) : CameraState :=
  { s with point_cloud_connect_count := s.point_cloud_connect_count + 1,
           image_connect_count := s.image_connect_count + 1,
           active := true }

/-- GazeboRosDepthCamera::PointCloudDisconnect (lines 235-241). -/
def PointCloudDisconnect (s : CameraState) : CameraState :=
  let t := { s with point_cloud_connect_count := s.point_cloud_connect_count - 1,
                    image_connect_count := s.image_connect_count - 1 }
  if t.point_cloud_connect_count ≤ 0 then { t with active := false } else t

/-- GazeboRosDepthCamera::ReflectanceConnect (lines 245-250). -/
def ReflectanceConnect (s : CameraState) : CameraState :=
  { s with reflectance_connect_count := s.reflectance_connect_count + 1,
           image_connect_count := s.image_connect_count + 1,
           active := true }

/-- GazeboRosDepthCamera::ReflectanceDisconnect (lines 263-269). -/
def ReflectanceDisconnect (s : CameraState) : CameraState :=
  let t := { s with reflectance_connect_count := s.reflectance_connect_count - 1,
                    image_connect_count := s.image_connect_count - 1 }
  if t.reflectance_connect_count ≤ 0 then { t with active := false } else t

/-- GazeboRosDepthCamera::NormalsConnect (lines 254-259). -/
def NormalsConnect (s : CameraState) : CameraState :=
  { s with normals_connect_count := s.normals_connect_count + 1,
           image_connect_count := s.image_connect_count + 1,
           active := true }

/-- GazeboRosDepthCamera::NormalsDisconnect (lines 273-279).  Note that the
source tests `reflectance_connect_count_ <= 0`, not the normals counter,
before deactivating. -/
def NormalsDisconnect (s : CameraState) : CameraState :=
  let t := { s with normals_connect_count := s.normals_connect_count - 1,
                    image_connect_count := s.image_connect_count - 1 }
  if t.reflectance_connect_count ≤ 0 then { t with active := false } else t

/-- GazeboRosDepthCamera::DepthImageConnect (lines 283-287). -/
def DepthImageConnect (s : CameraState) : CameraState :=
  { s with depth_image_connect_count := s.depth_image_connect_count + 1,
           active := true }

/-- GazeboRosDepthCamera::DepthImageDisconnect (lines 291-294): decrement
only, never deactivates. -/
def DepthImageDisconnect (s : CameraState) : CameraState :=
  { s with depth_image_connect_count := s.depth_image_connect_count - 1 }

/-- GazeboRosDepthCamera::DepthInfoConnect (lines 298-301). -/
def DepthInfoConnect (s : CameraState) : CameraState :=
  { s with depth_info_connect_count := s.depth_info_connect_count + 1 }

/-- GazeboRosDepthCamera::DepthInfoDisconnect (lines 304-307): decrement
only, never deactivates. -/
def DepthInfoDisconnect (s : CameraState) : CameraState :=
  { s with depth_info_connect_count := s.depth_info_connect_count - 1 }

/-- Observable outcome of one OnNewDepthFrame delivery: the successor state,
how many SetActive(true) requests were issued, and which of the two outputs
(point cloud via FillPointdCloud, depth image via FillDepthImage) were
published during the callback. -/
structure DepthFrameResult where
  state : CameraState
  activations : ℕ
  publishedPointCloud : Bool
  publishedDepthImage : Bool
deriving DecidableEq

/-- Control skeleton of GazeboRosDepthCamera::OnNewDepthFrame
(lines 311-360).  `inited` is the `initialized_` flag, `cfgWidth`/`cfgHeight`
are the configured `width_`/`height_` members tested by the guard.  While
active, the callback deactivates when the point-cloud, depth-image, shared
image and normals counters are all nonpositive, and otherwise converts for
the consumers present; while inactive, the source activates under the
condition `point_cloud_connect_count_ > 0 || depth_image_connect_count_ <= 0`
exactly as written, without converting. -/
def OnNewDepthFrame (inited : Bool) (cfgWidth cfgHeight : ℤ)
    (s : CameraState) : DepthFrameResult :=
  if inited = false ∨ cfgHeight ≤ 0 ∨ cfgWidth ≤ 0 then ⟨s, 0, false, false⟩
  else if s.active then
    if s.point_cloud_connect_count ≤ 0 ∧ s.depth_image_connect_count ≤ 0 ∧
        s.image_connect_count ≤ 0 ∧ s.normals_connect_count ≤ 0 then
      ⟨{ s with active := false }, 0, false, false⟩
    else
      ⟨s, 0,
        decide (0 < s.point_cloud_connect_count ∨ 0 < s.normals_connect_count),
        decide (0 < s.depth_image_connect_count)⟩
  else
    if 0 < s.point_cloud_connect_count ∨ s.depth_image_connect_count ≤ 0 then
      ⟨{ s with active := true }, 1, false, false⟩
    else
      ⟨s, 0, false, false⟩

/-- Control skeleton of GazeboRosDepthCamera::OnNewImageFrame
(lines 488-525): guard, then activate if inactive with image consumers,
else publish the colour image (PutCameraData) when consumers exist.  The
Bool records whether the image was published. -/
def OnNewImageFrame (inited : Bool) (cfgWidth cfgHeight : ℤ)
    (s : CameraState) : CameraState × Bool :=
  if inited = false ∨ cfgHeight ≤ 0 ∨ cfgWidth ≤ 0 then (s, false)
  else if s.active then
    (s, decide (0 < s.image_connect_count))
  else
    (if 0 < s.image_connect_count then { s with active := true } else s, false)

/-- Control skeleton of GazeboRosDepthCamera::OnNewReflectanceFrame
(lines 450-484): guard, then publish when reflectance consumers exist; this
callback never touches the active flag. -/
def OnNewReflectanceFrame (inited : Bool) (cfgWidth cfgHeight : ℤ)
    (s : CameraState) : CameraState × Bool :=
  if inited = false ∨ cfgHeight ≤ 0 ∨ cfgWidth ≤ 0 then (s, false)
  else (s, decide (0 < s.reflectance_connect_count))

/-- One arrow marker as built in OnNewNormalsFrame (lines 563-606): the
identifier is the flat pixel index, the position is read from the cached
point grid `pcd_`, and the orientation is a function of the per-pixel normal
vector (nx, ny, nz), embedded separately as `markerOrientation`. -/
structure Marker where
  id : ℕ
  px : FSlot
  py : FSlot
  pz : FSlot
  nx : ℚ
  ny : ℚ
  nz : ℚ
deriving DecidableEq

/-- Observable outcome of one OnNewNormalsFrame delivery: the successor
state and, when the callback publishes, the MarkerArray content. -/
structure NormalsResult where
  state : CameraState
  published : Option (List Marker)
deriving DecidableEq

/-- The marker-building double loop of OnNewNormalsFrame (lines 555-609):
i (column) outer, j (row) inner, one marker per pixel whose flat index
`j*w + i` is exactly divisible by the decimation stride. -/
def normalMarkers (w h reduce : ℕ) (g : ℕ → PcdEntry)
    (normals : ℕ → ℚ × ℚ × ℚ) : List Marker :=
  ((List.range w).map (fun i =>
    ((List.range h).filter (fun j => decide ((j * w + i) % reduce = 0))).map
      (fun j =>
        ⟨j * w + i, (g (j * w + i)).px, (g (j * w + i)).py, (g (j * w + i)).pz,
         (normals (j * w + i)).1, (normals (j * w + i)).2.1,
         (normals (j * w + i)).2.2⟩))).flatten

/-- Control skeleton of GazeboRosDepthCamera::OnNewNormalsFrame
(lines 528-617): guard, then activate if inactive with normals consumers,
else when normals consumers exist publish the marker array — built from the
cached point grid when `pcd_` is non-null, and empty otherwise. -/
def OnNewNormalsFrame (inited : Bool) (cfgWidth cfgHeight : ℤ)
    (w h reduce : ℕ) (pcd : Option (ℕ → PcdEntry))
    (normals : ℕ → ℚ × ℚ × ℚ) (s : CameraState) : NormalsResult :=
  if inited = false ∨ cfgHeight ≤ 0 ∨ cfgWidth ≤ 0 then ⟨s, none⟩
  else if s.active then
    if 0 < s.normals_connect_count then
      ⟨s, some (match pcd with
        | none => []
        | some g => normalMarkers w h reduce g normals)⟩
    else ⟨s, none⟩
  else
    ⟨if 0 < s.normals_connect_count then { s with active := true } else s, none⟩

/-- A 3-vector of reals, modelling tf::Vector3 in the marker-orientation
computation of OnNewNormalsFrame. -/
structure V3 where
  x : ℝ
  y : ℝ
  z : ℝ

/-- A quaternion (x, y, z, w), modelling tf::Quaternion. -/
structure Quat where
  x : ℝ
  y : ℝ
  z : ℝ
  w : ℝ

/-- tf::Vector3::cross. -/
def crossV (a b : V3) : V3 :=
  ⟨a.y * b.z - a.z * b.y, a.z * b.x - a.x * b.z, a.x * b.y - a.y * b.x⟩

/-- tf::Vector3::dot. -/
def dotV (a b : V3) : ℝ := a.x * b.x + a.y * b.y + a.z * b.z

/-- Componentwise negation of a 3-vector (proof infrastructure). -/
def negV (a : V3) : V3 := ⟨-a.x, -a.y, -a.z⟩

/-- tf::Quaternion::setRotation(axis, angle): the axis is normalized by its
Euclidean length and scaled by sin(angle/2); w is cos(angle/2). -/
noncomputable def setRotation (axis : V3) (angle : ℝ) : Quat :=
  let d := Real.sqrt (axis.x ^ 2 + axis.y ^ 2 + axis.z ^ 2)
  let s := Real.sin (angle / 2) / d
  ⟨axis.x * s, axis.y * s, axis.z * s, Real.cos (angle / 2)⟩

/-- tf::Quaternion::normalize: divide all four components by the Euclidean
norm. -/
noncomputable def qnormalize (q : Quat) : Quat :=
  let n := Real.sqrt (q.x ^ 2 + q.y ^ 2 + q.z ^ 2 + q.w ^ 2)
  ⟨q.x / n, q.y / n, q.z / n, q.w / n⟩

open Classical

/-- The marker-orientation computation of OnNewNormalsFrame (lines 589-599):
identity for the zero normal; otherwise the axis is
`axis_vector.cross(vector)` with `axis_vector` the normal and `vector` the
reference (1,0,0) — i.e. normal × reference — and the angle is
−acos(normal · reference); the quaternion is normalized afterwards.  The
source's call `right_vector.normalized()` discards its result and has no
effect. -/
noncomputable def markerOrientation (n : V3) : Quat :=
  if n.x = 0 ∧ n.y = 0 ∧ n.z = 0 then ⟨0, 0, 0, 1⟩
  else
    qnormalize (setRotation (crossV n ⟨1, 0, 0⟩)
      (-(Real.arccos (dotV n ⟨1, 0, 0⟩))))

/-- Modelled from the spec (section 4.5): the same construction but with
axis = reference × normal, as the spec's words state it; to be compared with
`markerOrientation`, which embeds the source. -/
noncomputable def markerOrientationSpec (n : V3) : Quat :=
  if n.x = 0 ∧ n.y = 0 ∧ n.z = 0 then ⟨0, 0, 0, 1⟩
  else
    qnormalize (setRotation (crossV ⟨1, 0, 0⟩ n)
      (-(Real.arccos (dotV n ⟨1, 0, 0⟩))))

theorem range_getElem_eq (n idx : ℕ) (h : idx < n) :
    (List.range n)[idx]? = some idx := by
  rw [List.getElem?_eq_getElem (by simpa using h)]
  simp

theorem points_getElem (cutoff : ℚ) (rows cols : ℕ) (tanY tanP depth : ℕ → ℚ)
    (img : List ℕ) (idx : ℕ) (h : idx < rows * cols) :
    ((FillPointCloudHelper cutoff rows cols tanY tanP depth img).1.points)[idx]?
      = some (fillCell cutoff rows cols tanY tanP depth img idx).1 := by
  simp only [FillPointCloudHelper, List.getElem?_map, range_getElem_eq _ _ h,
    Option.map_some']

theorem pcd_getElem (cutoff : ℚ) (rows cols : ℕ) (tanY tanP depth : ℕ → ℚ)
    (img : List ℕ) (idx : ℕ) (h : idx < rows * cols) :
    ((FillPointCloudHelper cutoff rows cols tanY tanP depth img).2)[idx]?
      = some (fillCell cutoff rows cols tanY tanP depth img idx).2 := by
  simp only [FillPointCloudHelper, List.getElem?_map, range_getElem_eq _ _ h,
    Option.map_some']

/-- Claim C1: for every depth grid and every pixel whose sample d satisfies
d > pointCloudCutoff, FillPointCloudHelper stores z = d exactly for that
pixel in the message and mirrors it into the cached point grid's z slot, and
the message's dense flag remains true when no sample in the grid is ≤ the
cutoff. -/
theorem C1_point_z_exact (cutoff : ℚ) (rows cols : ℕ) (tanY tanP depth : ℕ → ℚ)
    (img : List ℕ) (idx : ℕ) (hidx : idx < rows * cols)
    (hd : cutoff < depth idx) :
    (((FillPointCloudHelper cutoff rows cols tanY tanP depth img).1.points)[idx]?).map
        CloudPoint.z = some (some (depth idx)) ∧
    (((FillPointCloudHelper cutoff rows cols tanY tanP depth img).2)[idx]?).map
        PcdEntry.pz = some (some (depth idx)) ∧
    ((∀ k, k < rows * cols → cutoff < depth k) →
      (FillPointCloudHelper cutoff rows cols tanY tanP depth img).1.is_dense = true) := by
  refine ⟨?_, ?_, ?_⟩
  · rw [points_getElem cutoff rows cols tanY tanP depth img idx hidx]
    simp [fillCell, hd]
  · rw [pcd_getElem cutoff rows cols tanY tanP depth img idx hidx]
    simp [fillCell, hd]
  · intro hall
    simp only [FillPointCloudHelper]
    rw [List.all_eq_true]
    intro k hk
    exact decide_eq_true (hall k (List.mem_range.mp hk))

/-- Witness for C1 at a concrete 1-by-1 grid with sample 1 and cutoff 2/5. -/
theorem C1_witness :
    (((FillPointCloudHelper (2/5) 1 1 (fun _ => 0) (fun _ => 0) (fun _ => 1) []).1.points)[0]?).map
        CloudPoint.z = some (some 1) ∧
    (((FillPointCloudHelper (2/5) 1 1 (fun _ => 0) (fun _ => 0) (fun _ => 1) []).2)[0]?).map
        PcdEntry.pz = some (some 1) ∧
    ((∀ k, k < 1 * 1 → (2/5 : ℚ) < 1) →
      (FillPointCloudHelper (2/5) 1 1 (fun _ => 0) (fun _ => 0) (fun _ => 1) []).1.is_dense = true) :=
  C1_point_z_exact (2/5) 1 1 (fun _ => 0) (fun _ => 0) (fun _ => 1) [] 0
    (by norm_num) (by norm_num)

/-- Claim C2, counterexample: at a 1-by-1 grid with cutoff 2/5 and sample
3/10 ≤ 2/5, the cached point grid's x and y slots hold the NaN sentinel, not
the tangent-scaled values 3/10 * 1 that the claim says they retain: the
source overwrites iter_x and iter_y with NaN before copying them into
pcd_. -/
theorem C2_counterexample :
    ((FillPointCloudHelper (2/5) 1 1 (fun _ => 1) (fun _ => 1) (fun _ => 3/10) []).2)[0]?
        = some ⟨none, none, some 0, some 0⟩ ∧
    ((FillPointCloudHelper (2/5) 1 1 (fun _ => 1) (fun _ => 1) (fun _ => 3/10) []).2)[0]?
        ≠ some ⟨some ((3/10 : ℚ) * 1), some ((3/10 : ℚ) * 1), some 0, some 0⟩ := by
  have hpcd : ((FillPointCloudHelper (2/5) 1 1 (fun _ => 1) (fun _ => 1) (fun _ => 3/10) []).2)[0]?
      = some ⟨none, none, some 0, some 0⟩ := by
    rw [pcd_getElem (2/5) 1 1 (fun _ => 1) (fun _ => 1) (fun _ => 3/10) [] 0 (by norm_num)]
    norm_num [fillCell]
  refine ⟨hpcd, ?_⟩
  rw [hpcd]
  simp

/-- Claim C2 as amended: for every pixel whose sample d satisfies
d ≤ pointCloudCutoff, FillPointCloudHelper sets that point's x, y and z in
the message to the NaN sentinel and clears the dense flag, and writes the
cached point grid entry as (NaN, NaN, 0, 0): the x and y slots also receive
the NaN sentinel (they do not retain their tangent-scaled values), and the
z slot is 0. -/
theorem C2_cutoff_nan (cutoff : ℚ) (rows cols : ℕ) (tanY tanP depth : ℕ → ℚ)
    (img : List ℕ) (idx : ℕ) (hidx : idx < rows * cols)
    (hd : depth idx ≤ cutoff) :
    (((FillPointCloudHelper cutoff rows cols tanY tanP depth img).1.points)[idx]?).map
        CloudPoint.x = some none ∧
    (((FillPointCloudHelper cutoff rows cols tanY tanP depth img).1.points)[idx]?).map
        CloudPoint.y = some none ∧
    (((FillPointCloudHelper cutoff rows cols tanY tanP depth img).1.points)[idx]?).map
        CloudPoint.z = some none ∧
    (FillPointCloudHelper cutoff rows cols tanY tanP depth img).1.is_dense = false ∧
    ((FillPointCloudHelper cutoff rows cols tanY tanP depth img).2)[idx]?
        = some ⟨none, none, some 0, some 0⟩ := by
  have hnot : ¬ (cutoff < depth idx) := not_lt.mpr hd
  refine ⟨?_, ?_, ?_, ?_, ?_⟩
  · rw [points_getElem cutoff rows cols tanY tanP depth img idx hidx]
    simp [fillCell, hnot]
  · rw [points_getElem cutoff rows cols tanY tanP depth img idx hidx]
    simp [fillCell, hnot]
  · rw [points_getElem cutoff rows cols tanY tanP depth img idx hidx]
    simp [fillCell, hnot]
  · rw [Bool.eq_false_iff]
    intro hall
    simp only [FillPointCloudHelper] at hall
    rw [List.all_eq_true] at hall
    have := hall idx (List.mem_range.mpr hidx)
    exact hnot (of_decide_eq_true this)
  · rw [pcd_getElem cutoff rows cols tanY tanP depth img idx hidx]
    simp [fillCell, hnot]

/-- Witness for the amended C2 at a concrete 1-by-1 grid with sample 3/10
and cutoff 2/5. -/
theorem C2_witness :
    (((FillPointCloudHelper (2/5) 1 1 (fun _ => 1) (fun _ => 1) (fun _ => 3/10) []).1.points)[0]?).map
        CloudPoint.x = some none ∧
    (((FillPointCloudHelper (2/5) 1 1 (fun _ => 1) (fun _ => 1) (fun _ => 3/10) []).1.points)[0]?).map
        CloudPoint.y = some none ∧
    (((FillPointCloudHelper (2/5) 1 1 (fun _ => 1) (fun _ => 1) (fun _ => 3/10) []).1.points)[0]?).map
        CloudPoint.z = some none ∧
    (FillPointCloudHelper (2/5) 1 1 (fun _ => 1) (fun _ => 1) (fun _ => 3/10) []).1.is_dense = false ∧
    ((FillPointCloudHelper (2/5) 1 1 (fun _ => 1) (fun _ => 1) (fun _ => 3/10) []).2)[0]?
        = some ⟨none, none, some 0, some 0⟩ :=
  C2_cutoff_nan (2/5) 1 1 (fun _ => 1) (fun _ => 1) (fun _ => 3/10) [] 0
    (by norm_num) (by norm_num)

/-- Claim C6: for every cached colour buffer, if its byte length equals
rows*cols*3 the fused colour of the point at column i, row j equals the
source bytes at offsets i*3 + j*cols*3 + {0,1,2}; if its byte length equals
rows*cols the single byte at i + j*cols is replicated into all three
channels; for any other length (including the absent, empty buffer) all
three fused channels are 0.  `fusedColor` is total, so no error is raised in
any case. -/
theorem C6_color_fusion (cutoff : ℚ) (rows cols : ℕ) (tanY tanP depth : ℕ → ℚ)
    (img : List ℕ) (i j : ℕ) (hi : i < cols) (hj : j < rows) :
    ((((FillPointCloudHelper cutoff rows cols tanY tanP depth img).1.points)[j * cols + i]?).map
        CloudPoint.c0 = some (fusedColor rows cols img i j).1 ∧
     (((FillPointCloudHelper cutoff rows cols tanY tanP depth img).1.points)[j * cols + i]?).map
        CloudPoint.c1 = some (fusedColor rows cols img i j).2.1 ∧
     (((FillPointCloudHelper cutoff rows cols tanY tanP depth img).1.points)[j * cols + i]?).map
        CloudPoint.c2 = some (fusedColor rows cols img i j).2.2) ∧
    (img.length = rows * cols * 3 →
      fusedColor rows cols img i j =
        (img.getD (i * 3 + j * cols * 3 + 0) 0,
         img.getD (i * 3 + j * cols * 3 + 1) 0,
         img.getD (i * 3 + j * cols * 3 + 2) 0)) ∧
    (img.length = rows * cols →
      fusedColor rows cols img i j =
        (img.getD (i + j * cols) 0, img.getD (i + j * cols) 0,
         img.getD (i + j * cols) 0)) ∧
    (img.length ≠ rows * cols * 3 → img.length ≠ rows * cols →
      fusedColor rows cols img i j = (0, 0, 0)) := by
  have hcols : 0 < cols := lt_of_le_of_lt (Nat.zero_le i) hi
  have hrows : 0 < rows := lt_of_le_of_lt (Nat.zero_le j) hj
  have hidx : j * cols + i < rows * cols := by
    calc j * cols + i < j * cols + cols := by omega
    _ = (j + 1) * cols := by ring
    _ ≤ rows * cols := Nat.mul_le_mul_right cols hj
  have hmod : (j * cols + i) % cols = i := by
    rw [Nat.add_comm, Nat.add_mul_mod_self_right, Nat.mod_eq_of_lt hi]
  have hdiv : (j * cols + i) / cols = j := by
    rw [Nat.add_comm, Nat.add_mul_div_right i j hcols, Nat.div_eq_of_lt hi,
      Nat.zero_add]
  refine ⟨?_, ?_, ?_, ?_⟩
  · rw [points_getElem cutoff rows cols tanY tanP depth img _ hidx]
    refine ⟨?_, ?_, ?_⟩ <;> simp [fillCell, hmod, hdiv]
  · intro hlen
    rw [fusedColor, if_pos hlen]
  · intro hlen
    have hne : ¬ (img.length = rows * cols * 3) := by
      rw [hlen]
      have : 0 < rows * cols := Nat.mul_pos hrows hcols
      omega
    rw [fusedColor, if_neg hne, if_pos hlen]
  · intro h3 h1
    rw [fusedColor, if_neg h3, if_neg h1]

/-- Witness for C6 on a concrete 1-by-2 grid with a 3-channel buffer. -/
theorem C6_witness :
    ((((FillPointCloudHelper (2/5) 1 2 (fun _ => 0) (fun _ => 0) (fun _ => 1)
          [10, 20, 30, 40, 50, 60]).1.points)[0 * 2 + 1]?).map
        CloudPoint.c0 = some (fusedColor 1 2 [10, 20, 30, 40, 50, 60] 1 0).1 ∧
     (((FillPointCloudHelper (2/5) 1 2 (fun _ => 0) (fun _ => 0) (fun _ => 1)
          [10, 20, 30, 40, 50, 60]).1.points)[0 * 2 + 1]?).map
        CloudPoint.c1 = some (fusedColor 1 2 [10, 20, 30, 40, 50, 60] 1 0).2.1 ∧
     (((FillPointCloudHelper (2/5) 1 2 (fun _ => 0) (fun _ => 0) (fun _ => 1)
          [10, 20, 30, 40, 50, 60]).1.points)[0 * 2 + 1]?).map
        CloudPoint.c2 = some (fusedColor 1 2 [10, 20, 30, 40, 50, 60] 1 0).2.2) ∧
    ([10, 20, 30, 40, 50, 60].length = 1 * 2 * 3 →
      fusedColor 1 2 [10, 20, 30, 40, 50, 60] 1 0 =
        ([10, 20, 30, 40, 50, 60].getD (1 * 3 + 0 * 2 * 3 + 0) 0,
         [10, 20, 30, 40, 50, 60].getD (1 * 3 + 0 * 2 * 3 + 1) 0,
         [10, 20, 30, 40, 50, 60].getD (1 * 3 + 0 * 2 * 3 + 2) 0)) ∧
    ([10, 20, 30, 40, 50, 60].length = 1 * 2 →
      fusedColor 1 2 [10, 20, 30, 40, 50, 60] 1 0 =
        ([10, 20, 30, 40, 50, 60].getD (1 + 0 * 2) 0,
         [10, 20, 30, 40, 50, 60].getD (1 + 0 * 2) 0,
         [10, 20, 30, 40, 50, 60].getD (1 + 0 * 2) 0)) ∧
    ([10, 20, 30, 40, 50, 60].length ≠ 1 * 2 * 3 →
      [10, 20, 30, 40, 50, 60].length ≠ 1 * 2 →
      fusedColor 1 2 [10, 20, 30, 40, 50, 60] 1 0 = (0, 0, 0)) :=
  C6_color_fusion (2/5) 1 2 (fun _ => 0) (fun _ => 0) (fun _ => 1)
    [10, 20, 30, 40, 50, 60] 1 0 (by norm_num) (by norm_num)

/-- Claim C5, counterexample: with the 16UC1 encoding, cutoff 2/5 and the
single sample 4019/10000 (the depth 0.4019, exceeding the cutoff), the
source writes the truncation 401 of 401.9, not the claimed rounding 402, and
the round-trip error |0.4019 - 0.401| = 0.0009 exceeds the claimed 0.5 mm
bound. -/
theorem C5_counterexample :
    (FillDepthImageHelper true (2/5) 1 1 (fun _ => 4019/10000)).at16 0 = some 401 ∧
    round ((4019/10000 : ℚ) * 1000) = 402 ∧
    (401 : ℕ) ≠ 402 ∧
    ¬ (|(4019/10000 : ℚ) - 401/1000| ≤ 1/2000) := by
  have hfloor : ⌊(4019/10000 : ℚ) * 1000⌋ = 401 := by
    rw [Int.floor_eq_iff]
    norm_num
  refine ⟨?_, ?_, by norm_num, by rw [abs_of_nonneg (by norm_num)]; norm_num⟩
  · simp only [FillDepthImageHelper, Bool.true_eq_false, if_neg, ite_false,
      DepthRaster.at16]
    rw [List.getElem?_map, range_getElem_eq 1 0 (by norm_num)]
    norm_num [hfloor, Int.toNat_ofNat]
    rfl
  · rw [round_eq]
    rw [Int.floor_eq_iff]
    norm_num

/-- Claim C5 as amended: for every depth sample d, the 16-bit raster
encoding writes the truncation toward zero of d * 1000 (no rounding and no
clamping; a product outside the 16-bit range is undefined behaviour in the
source) when d > cutoff and writes exactly 0 otherwise, so that dividing
each non-zero 16-bit output by 1000 reproduces the input depth to within
1 mm from below; the 32-bit float encoding writes d directly when
d > cutoff and the NaN sentinel otherwise. -/
theorem C5_raster_encoding (cutoff : ℚ) (rows cols : ℕ) (depth : ℕ → ℚ)
    (idx : ℕ) (hidx : idx < rows * cols) :
    (FillDepthImageHelper false cutoff rows cols depth).atF idx
      = some (if cutoff < depth idx then some (depth idx) else none) ∧
    (FillDepthImageHelper true cutoff rows cols depth).at16 idx
      = some (if cutoff < depth idx then (⌊depth idx * 1000⌋).toNat else 0) ∧
    (0 ≤ depth idx → cutoff < depth idx →
      ((⌊depth idx * 1000⌋).toNat : ℚ) / 1000 ≤ depth idx ∧
      depth idx - ((⌊depth idx * 1000⌋).toNat : ℚ) / 1000 < 1 / 1000) := by
  refine ⟨?_, ?_, ?_⟩
  · simp only [FillDepthImageHelper, eq_self_iff_true, ite_true, DepthRaster.atF]
    rw [List.getElem?_map, range_getElem_eq _ _ hidx]
    rfl
  · simp only [FillDepthImageHelper, Bool.true_eq_false, ite_false,
      DepthRaster.at16]
    rw [List.getElem?_map, range_getElem_eq _ _ hidx]
    rfl
  · intro h0 hc
    have hf0 : 0 ≤ ⌊depth idx * 1000⌋ := Int.floor_nonneg.mpr (by positivity)
    have hcast : ((⌊depth idx * 1000⌋).toNat : ℚ) = ((⌊depth idx * 1000⌋ : ℤ) : ℚ) := by
      exact_mod_cast Int.toNat_of_nonneg hf0
    have h1 : ((⌊depth idx * 1000⌋ : ℤ) : ℚ) ≤ depth idx * 1000 := Int.floor_le _
    have h2 : depth idx * 1000 < (⌊depth idx * 1000⌋ : ℤ) + 1 :=
      Int.lt_floor_add_one _
    constructor
    · rw [hcast, div_le_iff₀ (show (0:ℚ) < 1000 by norm_num)]
      exact h1
    · rw [hcast, sub_lt_iff_lt_add, div_add_div_same,
        lt_div_iff₀ (show (0:ℚ) < 1000 by norm_num)]
      calc depth idx * 1000 < (⌊depth idx * 1000⌋ : ℤ) + 1 := h2
      _ = 1 + (⌊depth idx * 1000⌋ : ℤ) := by ring
      _ ≤ 1 + ((⌊depth idx * 1000⌋ : ℤ) : ℚ) := by norm_num

/-- Witness for the amended C5 at a concrete 1-by-1 grid with sample 1/2
and cutoff 2/5. -/
theorem C5_witness :
    (FillDepthImageHelper false (2/5) 1 1 (fun _ => 1/2)).atF 0
      = some (if (2/5 : ℚ) < 1/2 then some ((1/2 : ℚ)) else none) ∧
    (FillDepthImageHelper true (2/5) 1 1 (fun _ => 1/2)).at16 0
      = some (if (2/5 : ℚ) < 1/2 then (⌊(1/2 : ℚ) * 1000⌋).toNat else 0) ∧
    (0 ≤ (1/2 : ℚ) → (2/5 : ℚ) < 1/2 →
      ((⌊(1/2 : ℚ) * 1000⌋).toNat : ℚ) / 1000 ≤ 1/2 ∧
      (1/2 : ℚ) - ((⌊(1/2 : ℚ) * 1000⌋).toNat : ℚ) / 1000 < 1 / 1000) :=
  C5_raster_encoding (2/5) 1 1 (fun _ => 1/2) 0 (by norm_num)

/-- Claim C3, counterexample: a depth frame delivered while the device is
inactive and only the depth-image counter is positive issues no activation
request at all: the source's inactive-branch condition is
`point_cloud_connect_count_ > 0 || depth_image_connect_count_ <= 0`, which
is false when the depth-image counter (a relevant subscriber counter for
this callback, since it gates FillDepthImage) is the one that is
positive. -/
theorem C3_counterexample :
    (0 : ℤ) < (⟨0, 0, 1, 0, 0, 0, false⟩ : CameraState).depth_image_connect_count ∧
    (⟨0, 0, 1, 0, 0, 0, false⟩ : CameraState).active = false ∧
    (OnNewDepthFrame true 640 480 ⟨0, 0, 1, 0, 0, 0, false⟩).activations = 0 ∧
    (OnNewDepthFrame true 640 480 ⟨0, 0, 1, 0, 0, 0, false⟩).state
      = ⟨0, 0, 1, 0, 0, 0, false⟩ := by
  decide

/-- Claim C3 as amended: on a depth-frame delivery while the device is
inactive, an activation request is issued iff the point-cloud counter is
positive or the depth-image counter is nonpositive (so a depth-image-only
subscriber does not trigger activation); when issued it is exactly one
request, and no conversion runs that frame.  The first point-cloud output
after a 0-to-1 point-cloud-subscriber transition is produced only on the
subsequent frame.  On a delivery while the device is active, if every
output counter is nonpositive the device is deactivated and no conversion
runs. -/
theorem C3_activation_policy (cfgW cfgH : ℤ) (s : CameraState)
    (hw : 0 < cfgW) (hh : 0 < cfgH) :
    (s.active = false →
      OnNewDepthFrame true cfgW cfgH s =
        (if 0 < s.point_cloud_connect_count ∨ s.depth_image_connect_count ≤ 0 then
          ⟨{ s with active := true }, 1, false, false⟩
        else ⟨s, 0, false, false⟩)) ∧
    (s.active = false → 0 < s.point_cloud_connect_count →
      (OnNewDepthFrame true cfgW cfgH
        (OnNewDepthFrame true cfgW cfgH s).state).publishedPointCloud = true) ∧
    (s.active = true →
      (s.point_cloud_connect_count ≤ 0 ∧ s.depth_image_connect_count ≤ 0 ∧
       s.image_connect_count ≤ 0 ∧ s.normals_connect_count ≤ 0) →
      OnNewDepthFrame true cfgW cfgH s = ⟨{ s with active := false }, 0, false, false⟩) := by
  have hguard : ¬ (true = false ∨ cfgH ≤ 0 ∨ cfgW ≤ 0) := by
    push_neg
    exact ⟨by simp, by omega, by omega⟩
  refine ⟨?_, ?_, ?_⟩
  · intro ha
    simp only [OnNewDepthFrame, if_neg hguard, ha, Bool.false_eq_true, if_false]
  · intro ha hpc
    have h1 : (OnNewDepthFrame true cfgW cfgH s).state = { s with active := true } := by
      simp only [OnNewDepthFrame, if_neg hguard, ha, Bool.false_eq_true, if_false]
      rw [if_pos (Or.inl hpc)]
    rw [h1]
    simp only [OnNewDepthFrame, if_neg hguard, if_true]
    rw [if_neg (by
      intro hall
      exact absurd hpc (not_lt.mpr hall.1))]
    exact decide_eq_true (Or.inl hpc)
  · intro ha hall
    simp only [OnNewDepthFrame, if_neg hguard, ha, if_true]
    rw [if_pos hall]

/-- Witness for the amended C3 at a concrete inactive state with one
point-cloud subscriber. -/
theorem C3_witness :
    ((⟨1, 0, 0, 0, 0, 1, false⟩ : CameraState).active = false →
      OnNewDepthFrame true 640 480 ⟨1, 0, 0, 0, 0, 1, false⟩ =
        (if 0 < (⟨1, 0, 0, 0, 0, 1, false⟩ : CameraState).point_cloud_connect_count ∨
            (⟨1, 0, 0, 0, 0, 1, false⟩ : CameraState).depth_image_connect_count ≤ 0 then
          ⟨{ (⟨1, 0, 0, 0, 0, 1, false⟩ : CameraState) with active := true }, 1, false, false⟩
        else ⟨⟨1, 0, 0, 0, 0, 1, false⟩, 0, false, false⟩)) ∧
    ((⟨1, 0, 0, 0, 0, 1, false⟩ : CameraState).active = false →
      0 < (⟨1, 0, 0, 0, 0, 1, false⟩ : CameraState).point_cloud_connect_count →
      (OnNewDepthFrame true 640 480
        (OnNewDepthFrame true 640 480 ⟨1, 0, 0, 0, 0, 1, false⟩).state).publishedPointCloud = true) ∧
    ((⟨1, 0, 0, 0, 0, 1, false⟩ : CameraState).active = true →
      ((⟨1, 0, 0, 0, 0, 1, false⟩ : CameraState).point_cloud_connect_count ≤ 0 ∧
       (⟨1, 0, 0, 0, 0, 1, false⟩ : CameraState).depth_image_connect_count ≤ 0 ∧
       (⟨1, 0, 0, 0, 0, 1, false⟩ : CameraState).image_connect_count ≤ 0 ∧
       (⟨1, 0, 0, 0, 0, 1, false⟩ : CameraState).normals_connect_count ≤ 0) →
      OnNewDepthFrame true 640 480 ⟨1, 0, 0, 0, 0, 1, false⟩ =
        ⟨{ (⟨1, 0, 0, 0, 0, 1, false⟩ : CameraState) with active := false }, 0, false, false⟩) :=
  C3_activation_policy 640 480 ⟨1, 0, 0, 0, 0, 1, false⟩ (by decide) (by decide)

/-- Claim C4: the source's NormalsDisconnect tests the reflectance counter
instead of the normals counter before deactivating.  At a state with two
normals subscribers and no reflectance subscribers, one normals
unsubscription leaves the normals counter at 1 > 0 yet deactivates the
device; conversely with five reflectance subscribers, the normals counter
falling to 0 does not deactivate.  The claim (and the symmetric pattern of
every other disconnect handler) describes the evident intent; the code is a
copy-paste slip. -/
theorem C4_normals_disconnect_bug :
    (NormalsDisconnect ⟨0, 2, 0, 0, 0, 2, true⟩).normals_connect_count = 1 ∧
    (0 : ℤ) < (NormalsDisconnect ⟨0, 2, 0, 0, 0, 2, true⟩).normals_connect_count ∧
    (NormalsDisconnect ⟨0, 2, 0, 0, 0, 2, true⟩).active = false ∧
    (NormalsDisconnect ⟨0, 1, 0, 0, 5, 1, true⟩).normals_connect_count = 0 ∧
    (NormalsDisconnect ⟨0, 1, 0, 0, 5, 1, true⟩).active = true := by
  decide

/-- Claim C9: for every frame-delivery callback (depth, colour image,
normals, reflectance), if the plugin is not initialized or the configured
width or height is ≤ 0, the callback returns with the state unchanged and
no output published. -/
theorem C9_guard_noop (inited : Bool) (cfgW cfgH : ℤ) (s : CameraState)
    (w h reduce : ℕ) (pcd : Option (ℕ → PcdEntry)) (normals : ℕ → ℚ × ℚ × ℚ)
    (hguard : inited = false ∨ cfgH ≤ 0 ∨ cfgW ≤ 0) :
    OnNewDepthFrame inited cfgW cfgH s = ⟨s, 0, false, false⟩ ∧
    OnNewImageFrame inited cfgW cfgH s = (s, false) ∧
    OnNewNormalsFrame inited cfgW cfgH w h reduce pcd normals s = ⟨s, none⟩ ∧
    OnNewReflectanceFrame inited cfgW cfgH s = (s, false) := by
  refine ⟨?_, ?_, ?_, ?_⟩ <;>
    simp only [OnNewDepthFrame, OnNewImageFrame, OnNewNormalsFrame,
      OnNewReflectanceFrame, if_pos hguard]

/-- Witness for C9 with the plugin uninitialized. -/
theorem C9_witness :
    OnNewDepthFrame false 640 480 ⟨1, 1, 1, 1, 1, 1, true⟩ = ⟨⟨1, 1, 1, 1, 1, 1, true⟩, 0, false, false⟩ ∧
    OnNewImageFrame false 640 480 ⟨1, 1, 1, 1, 1, 1, true⟩ = (⟨1, 1, 1, 1, 1, 1, true⟩, false) ∧
    OnNewNormalsFrame false 640 480 2 2 1 none (fun _ => (0, 0, 0)) ⟨1, 1, 1, 1, 1, 1, true⟩
      = ⟨⟨1, 1, 1, 1, 1, 1, true⟩, none⟩ ∧
    OnNewReflectanceFrame false 640 480 ⟨1, 1, 1, 1, 1, 1, true⟩ = (⟨1, 1, 1, 1, 1, 1, true⟩, false) :=
  C9_guard_noop false 640 480 ⟨1, 1, 1, 1, 1, 1, true⟩ 2 2 1 none (fun _ => (0, 0, 0))
    (Or.inl rfl)

/-- Claim C10: a normal frame arriving while the device is active and the
normals counter is positive but the cached point grid is still null makes
OnNewNormalsFrame publish exactly one marker-array message containing zero
markers, leaving the state unchanged. -/
theorem C10_empty_markers (cfgW cfgH : ℤ) (w h reduce : ℕ)
    (normals : ℕ → ℚ × ℚ × ℚ) (s : CameraState)
    (hw : 0 < cfgW) (hh : 0 < cfgH) (ha : s.active = true)
    (hn : 0 < s.normals_connect_count) :
    OnNewNormalsFrame true cfgW cfgH w h reduce none normals s = ⟨s, some []⟩ := by
  have hguard : ¬ (true = false ∨ cfgH ≤ 0 ∨ cfgW ≤ 0) := by
    push_neg
    exact ⟨by simp, by omega, by omega⟩
  simp only [OnNewNormalsFrame, if_neg hguard, ha, if_true]
  rw [if_pos hn]

/-- Witness for C10 at a concrete active state with one normals
subscriber and a null point grid. -/
theorem C10_witness :
    OnNewNormalsFrame true 640 480 3 3 50 none (fun _ => (0, 0, 0)) ⟨0, 1, 0, 0, 0, 1, true⟩
      = ⟨⟨0, 1, 0, 0, 0, 1, true⟩, some []⟩ :=
  C10_empty_markers 640 480 3 3 50 (fun _ => (0, 0, 0)) ⟨0, 1, 0, 0, 0, 1, true⟩
    (by decide) (by decide) (by decide) (by decide)

theorem length_flatten_map {α : Type} (F : ℕ → List α) (w : ℕ) :
    (((List.range w).map F).flatten).length = ∑ i in Finset.range w, (F i).length := by
  induction w with
  | zero => simp
  | succ n ih =>
    rw [List.range_succ, List.map_append, List.flatten_append, List.length_append,
      ih, Finset.sum_range_succ]
    simp

theorem length_filter_mod (q : ℕ → ℕ) (N h : ℕ) :
    ((List.range h).filter (fun j => decide (q j % N = 0))).length
      = ∑ j in Finset.range h, if q j % N = 0 then 1 else 0 := by
  induction h with
  | zero => simp
  | succ n ih =>
    rw [List.range_succ, List.filter_append, List.length_append, ih,
      Finset.sum_range_succ]
    congr 1
    by_cases hp : q n % N = 0 <;> simp [hp]

theorem sum_range_mul_eq (f : ℕ → ℕ) (hh w : ℕ) :
    ∑ idx in Finset.range (hh * w), f idx
      = ∑ j in Finset.range hh, ∑ i in Finset.range w, f (j * w + i) := by
  induction hh with
  | zero => simp
  | succ n ih =>
    have hmul : (n + 1) * w = n * w + w := by ring
    rw [hmul]
    calc ∑ idx in Finset.range (n * w + w), f idx
        = (∑ idx in Finset.range (n * w), f idx)
            + ∑ i in Finset.range w, f (n * w + i) := by
          rw [Finset.range_eq_Ico,
            ← Finset.sum_Ico_consecutive f (Nat.zero_le (n * w))
              (Nat.le_add_right (n * w) w)]
          congr 1
          rw [Finset.sum_Ico_eq_sum_range]
          have harg : n * w + w - n * w = w := by omega
          rw [harg, ← Finset.range_eq_Ico]
      _ = (∑ j in Finset.range n, ∑ i in Finset.range w, f (j * w + i))
            + ∑ i in Finset.range w, f (n * w + i) := by rw [ih]
      _ = ∑ j in Finset.range (n + 1), ∑ i in Finset.range w, f (j * w + i) := by
          rw [Finset.sum_range_succ]

/-- Claim C8: for every w-by-h normal grid processed while the device is
active, the normals counter positive and the cached point grid populated,
OnNewNormalsFrame publishes a marker array whose size equals the count of
flat indices in 0..w*h-1 exactly divisible by the decimation stride, each
marker's identifier is its flat pixel index (divisible by the stride and
below w*h), and each marker's position equals the cached point grid's
(x, y, z) at that index. -/
theorem C8_decimation (cfgW cfgH : ℤ) (w h reduce : ℕ) (g : ℕ → PcdEntry)
    (normals : ℕ → ℚ × ℚ × ℚ) (s : CameraState)
    (hw : 0 < cfgW) (hh : 0 < cfgH) (ha : s.active = true)
    (hn : 0 < s.normals_connect_count) (_hr : 0 < reduce) :
    (OnNewNormalsFrame true cfgW cfgH w h reduce (some g) normals s).state = s ∧
    (OnNewNormalsFrame true cfgW cfgH w h reduce (some g) normals s).published
      = some (normalMarkers w h reduce g normals) ∧
    (normalMarkers w h reduce g normals).length
      = ((List.range (w * h)).filter (fun idx => decide (idx % reduce = 0))).length ∧
    ∀ m ∈ normalMarkers w h reduce g normals,
      m.id < w * h ∧ m.id % reduce = 0 ∧
      m.px = (g m.id).px ∧ m.py = (g m.id).py ∧ m.pz = (g m.id).pz := by
  have hguard : ¬ (true = false ∨ cfgH ≤ 0 ∨ cfgW ≤ 0) := by
    push_neg
    exact ⟨by simp, by omega, by omega⟩
  refine ⟨?_, ?_, ?_, ?_⟩
  · simp only [OnNewNormalsFrame, if_neg hguard, ha, if_true]
    rw [if_pos hn]
  · simp only [OnNewNormalsFrame, if_neg hguard, ha, if_true]
    rw [if_pos hn]
  · rw [normalMarkers, length_flatten_map]
    simp only [List.length_map]
    rw [Finset.sum_congr rfl
      (fun i _ => length_filter_mod (fun j => j * w + i) reduce h)]
    rw [length_filter_mod (fun idx => idx) reduce (w * h)]
    rw [Finset.sum_comm]
    rw [Nat.mul_comm w h]
    rw [sum_range_mul_eq (fun idx => if idx % reduce = 0 then 1 else 0) h w]
  · intro m hm
    simp only [normalMarkers, List.mem_flatten, List.mem_map] at hm
    obtain ⟨l, ⟨i, hi, rfl⟩, hml⟩ := hm
    simp only [List.mem_map, List.mem_filter, List.mem_range] at hml
    obtain ⟨j, ⟨hj, hdvd⟩, rfl⟩ := hml
    rw [List.mem_range] at hi
    refine ⟨?_, of_decide_eq_true hdvd, rfl, rfl, rfl⟩
    rw [Nat.mul_comm w h]
    calc j * w + i < j * w + w := by omega
      _ = (j + 1) * w := by ring
      _ ≤ h * w := Nat.mul_le_mul_right w (Nat.succ_le_of_lt hj)

/-- Witness for C8 at a concrete 2-by-2 grid with stride 2. -/
theorem C8_witness :
    (OnNewNormalsFrame true 640 480 2 2 2 (some (fun _ => ⟨some 1, some 2, some 3, some 0⟩))
        (fun _ => (0, 0, 1)) ⟨0, 1, 0, 0, 0, 1, true⟩).state = ⟨0, 1, 0, 0, 0, 1, true⟩ ∧
    (OnNewNormalsFrame true 640 480 2 2 2 (some (fun _ => ⟨some 1, some 2, some 3, some 0⟩))
        (fun _ => (0, 0, 1)) ⟨0, 1, 0, 0, 0, 1, true⟩).published
      = some (normalMarkers 2 2 2 (fun _ => ⟨some 1, some 2, some 3, some 0⟩) (fun _ => (0, 0, 1))) ∧
    (normalMarkers 2 2 2 (fun _ => ⟨some 1, some 2, some 3, some 0⟩) (fun _ => (0, 0, 1))).length
      = ((List.range (2 * 2)).filter (fun idx => decide (idx % 2 = 0))).length ∧
    ∀ m ∈ normalMarkers 2 2 2 (fun _ => ⟨some 1, some 2, some 3, some 0⟩) (fun _ => (0, 0, 1)),
      m.id < 2 * 2 ∧ m.id % 2 = 0 ∧
      m.px = ((fun _ => (⟨some 1, some 2, some 3, some 0⟩ : PcdEntry)) m.id).px ∧
      m.py = ((fun _ => (⟨some 1, some 2, some 3, some 0⟩ : PcdEntry)) m.id).py ∧
      m.pz = ((fun _ => (⟨some 1, some 2, some 3, some 0⟩ : PcdEntry)) m.id).pz :=
  C8_decimation 640 480 2 2 2 (fun _ => ⟨some 1, some 2, some 3, some 0⟩)
    (fun _ => (0, 0, 1)) ⟨0, 1, 0, 0, 0, 1, true⟩
    (by decide) (by decide) (by decide) (by decide) (by decide)

theorem crossV_skew (a b : V3) : crossV b a = negV (crossV a b) := by
  simp only [crossV, negV, V3.mk.injEq]
  refine ⟨by ring, by ring, by ring⟩

theorem setRotation_negV (a : V3) (angle : ℝ) :
    setRotation (negV a) angle =
      ⟨-(setRotation a angle).x, -(setRotation a angle).y,
        -(setRotation a angle).z, (setRotation a angle).w⟩ := by
  simp only [setRotation, negV]
  have hd : (-a.x) ^ 2 + (-a.y) ^ 2 + (-a.z) ^ 2 = a.x ^ 2 + a.y ^ 2 + a.z ^ 2 := by
    ring
  rw [hd]
  simp only [Quat.mk.injEq]
  refine ⟨by ring, by ring, by ring, trivial⟩

theorem qnormalize_negV (x y z w : ℝ) :
    qnormalize ⟨-x, -y, -z, w⟩ =
      ⟨-(qnormalize ⟨x, y, z, w⟩).x, -(qnormalize ⟨x, y, z, w⟩).y,
        -(qnormalize ⟨x, y, z, w⟩).z, (qnormalize ⟨x, y, z, w⟩).w⟩ := by
  simp only [qnormalize]
  have hd : (-x) ^ 2 + (-y) ^ 2 + (-z) ^ 2 + w ^ 2 = x ^ 2 + y ^ 2 + z ^ 2 + w ^ 2 := by
    ring
  rw [hd]
  simp only [Quat.mk.injEq]
  refine ⟨by ring, by ring, by ring, trivial⟩

theorem qnormalize_of_unit (q : Quat)
    (hq : q.x ^ 2 + q.y ^ 2 + q.z ^ 2 + q.w ^ 2 = 1) : qnormalize q = q := by
  simp only [qnormalize, hq, Real.sqrt_one, div_one]

/-- Claim C7 as amended: if the pixel's normal vector is the zero vector the
marker orientation is the identity quaternion; otherwise it is the
normalized unit quaternion built from axis = normal × reference (the
reverse cross-product order of the spec's reference × normal, whose result
it therefore negates) and angle = −acos(normal · reference): the produced
quaternion is the componentwise conjugate of the spec's formula, with the
vector part negated and the scalar part equal. -/
theorem C7_orientation (n : V3) :
    ((n.x = 0 ∧ n.y = 0 ∧ n.z = 0) → markerOrientation n = ⟨0, 0, 0, 1⟩) ∧
    (markerOrientation n).x = -((markerOrientationSpec n).x) ∧
    (markerOrientation n).y = -((markerOrientationSpec n).y) ∧
    (markerOrientation n).z = -((markerOrientationSpec n).z) ∧
    (markerOrientation n).w = (markerOrientationSpec n).w := by
  by_cases hz : n.x = 0 ∧ n.y = 0 ∧ n.z = 0
  · refine ⟨fun _ => ?_, ?_, ?_, ?_, ?_⟩ <;>
      simp [markerOrientation, markerOrientationSpec, hz]
  · have hspec : markerOrientationSpec n =
        ⟨-(markerOrientation n).x, -(markerOrientation n).y,
          -(markerOrientation n).z, (markerOrientation n).w⟩ := by
      rw [markerOrientation, markerOrientationSpec, if_neg hz, if_neg hz]
      rw [crossV_skew n ⟨1, 0, 0⟩, setRotation_negV, qnormalize_negV]
    rw [hspec]
    exact ⟨fun hcontra => absurd hcontra hz, by simp, by simp, by simp, rfl⟩

/-- Witness for the amended C7: at the zero normal the orientation is the
identity quaternion, and the scalar parts of the source formula and the
spec formula agree there. -/
theorem C7_witness :
    markerOrientation ⟨0, 0, 0⟩ = ⟨0, 0, 0, 1⟩ ∧
    (markerOrientation ⟨0, 0, 0⟩).w = (markerOrientationSpec ⟨0, 0, 0⟩).w :=
  ⟨(C7_orientation ⟨0, 0, 0⟩).1 ⟨rfl, rfl, rfl⟩,
   (C7_orientation ⟨0, 0, 0⟩).2.2.2.2⟩

theorem markerOrientation_unitZ :
    markerOrientation ⟨0, 0, 1⟩ = ⟨0, -(Real.sqrt 2 / 2), 0, Real.sqrt 2 / 2⟩ := by
  have hne : ¬ ((⟨0, 0, 1⟩ : V3).x = 0 ∧ (⟨0, 0, 1⟩ : V3).y = 0 ∧
      (⟨0, 0, 1⟩ : V3).z = 0) := by
    intro hc
    exact one_ne_zero hc.2.2
  rw [markerOrientation, if_neg hne]
  have hcross : crossV ⟨0, 0, 1⟩ ⟨1, 0, 0⟩ = ⟨0, 1, 0⟩ := by
    simp only [crossV, V3.mk.injEq]
    norm_num
  have hdot : dotV ⟨0, 0, 1⟩ ⟨1, 0, 0⟩ = 0 := by
    simp only [dotV]
    norm_num
  rw [hcross, hdot, Real.arccos_zero]
  have hsr : setRotation ⟨0, 1, 0⟩ (-(Real.pi / 2)) =
      ⟨0, -(Real.sqrt 2 / 2), 0, Real.sqrt 2 / 2⟩ := by
    simp only [setRotation]
    have harg : ((⟨0, 1, 0⟩ : V3).x ^ 2 + (⟨0, 1, 0⟩ : V3).y ^ 2 +
        (⟨0, 1, 0⟩ : V3).z ^ 2 : ℝ) = 1 := by norm_num
    rw [harg, Real.sqrt_one]
    have hang : -(Real.pi / 2) / 2 = -(Real.pi / 4) := by ring
    rw [hang, Real.sin_neg, Real.cos_neg, Real.sin_pi_div_four,
      Real.cos_pi_div_four]
    simp only [Quat.mk.injEq]
    norm_num
  rw [hsr]
  exact qnormalize_of_unit _ (by
    show (0:ℝ) ^ 2 + (-(Real.sqrt 2 / 2)) ^ 2 + 0 ^ 2 + (Real.sqrt 2 / 2) ^ 2 = 1
    linear_combination (1/2) * Real.sq_sqrt (show (0:ℝ) ≤ 2 by norm_num))

theorem markerOrientationSpec_unitZ :
    markerOrientationSpec ⟨0, 0, 1⟩ = ⟨0, Real.sqrt 2 / 2, 0, Real.sqrt 2 / 2⟩ := by
  have hne : ¬ ((⟨0, 0, 1⟩ : V3).x = 0 ∧ (⟨0, 0, 1⟩ : V3).y = 0 ∧
      (⟨0, 0, 1⟩ : V3).z = 0) := by
    intro hc
    exact one_ne_zero hc.2.2
  rw [markerOrientationSpec, if_neg hne]
  have hcross : crossV ⟨1, 0, 0⟩ ⟨0, 0, 1⟩ = ⟨0, -1, 0⟩ := by
    simp only [crossV, V3.mk.injEq]
    norm_num
  have hdot : dotV ⟨0, 0, 1⟩ ⟨1, 0, 0⟩ = 0 := by
    simp only [dotV]
    norm_num
  rw [hcross, hdot, Real.arccos_zero]
  have hsr : setRotation ⟨0, -1, 0⟩ (-(Real.pi / 2)) =
      ⟨0, Real.sqrt 2 / 2, 0, Real.sqrt 2 / 2⟩ := by
    simp only [setRotation]
    have harg : ((⟨0, -1, 0⟩ : V3).x ^ 2 + (⟨0, -1, 0⟩ : V3).y ^ 2 +
        (⟨0, -1, 0⟩ : V3).z ^ 2 : ℝ) = 1 := by norm_num
    rw [harg, Real.sqrt_one]
    have hang : -(Real.pi / 2) / 2 = -(Real.pi / 4) := by ring
    rw [hang, Real.sin_neg, Real.cos_neg, Real.sin_pi_div_four,
      Real.cos_pi_div_four]
    simp only [Quat.mk.injEq]
    norm_num
  rw [hsr]
  exact qnormalize_of_unit _ (by
    show (0:ℝ) ^ 2 + (Real.sqrt 2 / 2) ^ 2 + 0 ^ 2 + (Real.sqrt 2 / 2) ^ 2 = 1
    linear_combination (1/2) * Real.sq_sqrt (show (0:ℝ) ≤ 2 by norm_num))

/-- Claim C7, counterexample: at the normal (0, 0, 1) the source's
orientation (axis = normal × reference, giving y-component −√2/2) differs
from the claim's formula (axis = reference × normal, giving y-component
+√2/2): the two cross-product orders produce conjugate quaternions, not
equal ones. -/
theorem C7_counterexample :
    (markerOrientation ⟨0, 0, 1⟩).y ≠ (markerOrientationSpec ⟨0, 0, 1⟩).y := by
  have h2 : 0 < Real.sqrt 2 := Real.sqrt_pos.mpr (by norm_num)
  rw [markerOrientation_unitZ, markerOrientationSpec_unitZ]
  show -(Real.sqrt 2 / 2) ≠ Real.sqrt 2 / 2
  intro hc
  linarith
